import Mathlib

/-
Verification development for the AgentSwitchboard proxy
(services/proxy: semantic firewall, semantic WAF, flight recorder,
proxy route, traffic controller, radar anomaly detector, semantic cache).

Conventions of the shallow embedding:
* JavaScript numbers are modeled exactly over `ℚ`; every numeric
  discrepancy we prove is an order-of-operations / branch discrepancy
  that is insensitive to double rounding.
* Request/response bodies are opaque JSON values; the embedding carries
  the serialized body text (what `JSON.stringify` produces) wherever the
  source operates on the serialized form, and a structured message list
  where the source reads `body.messages`.
* External engines (the JS regex engine, the bloom-filters library's
  hash functions, SHA-256, the embedding model, uuid generation, the
  wall clock) are either given faithful executable Lean implementations
  (the four PII regexes) or passed as explicit function parameters.
* Stateful components (Redis, Postgres, the recorder buffer) become
  explicit state values threaded through the operations.
-/

set_option maxRecDepth 8000

attribute [local semireducible] Rat.add Rat.mul Rat.inv Rat.sub

namespace Switchboard

/-! ## Small string utilities -/

/-- Substring test on character lists: does `hay` contain `needle`
as a contiguous sublist?  Models JS `String.prototype.includes`. -/
def hasSubList (needle : List Char) : List Char → Bool
  | [] => needle.isPrefixOf []
  | c :: cs => needle.isPrefixOf (c :: cs) || hasSubList needle cs

/-- `strContains hay needle` models JS `hay.includes(needle)`. -/
def strContains (hay needle : String) : Bool :=
  hasSubList needle.data hay.data

/-- Worker for literal global replacement: the counter holds how many
characters of a just-replaced match are still to be skipped. -/
def replAux (needle repl : List Char) : Nat → List Char → List Char
  | _, [] => []
  | k + 1, _ :: cs => replAux needle repl k cs
  | 0, c :: cs =>
    if needle ≠ [] ∧ needle.isPrefixOf (c :: cs) then
      repl ++ replAux needle repl (needle.length - 1) cs
    else
      c :: replAux needle repl 0 cs

/-- Replace every occurrence of the (nonempty) literal `needle` by
`repl`, scanning left to right; models `String.replace` with a global
literal pattern. -/
def replaceAllList (needle repl l : List Char) : List Char :=
  replAux needle repl 0 l

/-- String version of `replaceAllList`. -/
def replaceAllLit (needle repl s : String) : String :=
  ⟨replaceAllList needle.data repl.data s.data⟩

/-- ASCII `toLowerCase`, written over the character list so that it
evaluates by kernel reduction (all source inputs are ASCII). -/
def asciiLower (s : String) : String := ⟨s.data.map Char.toLower⟩

/-- ASCII `toUpperCase`. -/
def asciiUpper (s : String) : String := ⟨s.data.map Char.toUpper⟩

/-- `s.substring(0, n)` / truncation, over the character list. -/
def strTake (s : String) (n : Nat) : String := ⟨s.data.take n⟩

/-- JS `Math.round` (round half toward +∞), exact over `ℚ`: the floor
of `q + 1/2`, written with `Int.fdiv` so that it evaluates by kernel
reduction. -/
def jsRound (q : ℚ) : ℚ := ((Int.fdiv (2 * q.num + q.den) (2 * q.den) : ℤ) : ℚ)

/-! ## Character classes and scanning, for the firewall's PII regexes -/

/-- JS regex word character `\w` = `[A-Za-z0-9_]`. -/
def isWordC (c : Char) : Bool := c.isAlphanum || c = '_'

/-- JS regex whitespace (the subset that can occur in our inputs). -/
def isWsC (c : Char) : Bool := c = ' ' || c = '\t' || c = '\n' || c = '\r'

/-- Split into maximal whitespace-free words, as JS `split(/\s+/)`
produces (minus the leading empty string JS yields when the text
starts with whitespace — the Bloom filter cannot contain it). -/
def splitWsAux : List Char → List Char → List String
  | acc, [] => if acc = [] then [] else [⟨acc.reverse⟩]
  | acc, c :: cs =>
    if isWsC c then
      (if acc = [] then splitWsAux [] cs else ⟨acc.reverse⟩ :: splitWsAux [] cs)
    else splitWsAux (c :: acc) cs

def wordsOf (s : String) : List String := splitWsAux [] s.data

/-- Word-character test on an optional char; out-of-string counts as
non-word, as in JS `\b` semantics. -/
def wordOpt : Option Char → Bool
  | none => false
  | some c => isWordC c

/-- A `\b` word boundary between a previous char and a next char. -/
def bnd (a b : Option Char) : Bool := wordOpt a != wordOpt b

/-- Try the match predicate `f` at every position of the list, feeding
it the character immediately before the position (for `\b`). -/
def scanPrev (f : Option Char → List Char → Bool) : Option Char → List Char → Bool
  | prev, [] => f prev []
  | prev, c :: cs => f prev (c :: cs) || scanPrev f (some c) cs

/-- Consume exactly `n` decimal digits. -/
def digitsN : Nat → List Char → Option (List Char)
  | 0, cs => some cs
  | _ + 1, [] => none
  | n + 1, c :: cs => if c.isDigit then digitsN n cs else none

/-- Consume one expected character. -/
def chTok (x : Char) : List Char → Option (List Char)
  | [] => none
  | c :: cs => if c = x then some cs else none

/-- All rests obtainable by consuming one or more chars in class `p`. -/
def manyPlus (p : Char → Bool) : List Char → List (List Char)
  | [] => []
  | c :: cs => if p c then cs :: manyPlus p cs else []

/-- All rests obtainable by consuming up to `n` chars in class `p`. -/
def upTo (p : Char → Bool) : Nat → List Char → List (List Char)
  | 0, cs => [cs]
  | _ + 1, [] => [[]]
  | n + 1, c :: cs => (c :: cs) :: (if p c then upTo p n cs else [])

/-- Trailing `\b` for patterns whose last matched char is a digit. -/
def endBnd (rest : List Char) : Bool := !(wordOpt rest.head?)

/-! ### The four `PII_PATTERNS` of the firewall

Source regexes (services/proxy/src/firewall/index.ts):
email `[a-zA-Z0-9._%+-]+@[a-zA-Z0-9.-]+\.[a-zA-Z]\x7b2,\x7d`,
SSN `\b\d\x7b3\x7d-\d\x7b2\x7d-\d\x7b4\x7d\b`,
credit card `\b(?:\d\x7b4\x7d[-\s]?)\x7b3\x7d\d\x7b4\x7d\b`,
phone `\b(?:\+\d\x7b1,3\x7d[-.\s]?)?\(?\d\x7b3\x7d\)?[-.\s]?\d\x7b3\x7d[-.\s]?\d\x7b4\x7d\b`.
Each Lean test decides whether a match exists somewhere in the string,
which is exactly what `RegExp.prototype.test` reports. -/

/-- Email local-part characters `[a-zA-Z0-9._%+-]`. -/
def isLocalC (c : Char) : Bool :=
  c.isAlphanum || c = '.' || c = '_' || c = '%' || c = '+' || c = '-'

/-- Email domain characters `[a-zA-Z0-9.-]`. -/
def isDomainC (c : Char) : Bool := c.isAlphanum || c = '.' || c = '-'

/-- After the `@`: one or more domain chars, a dot, then two letters
(two suffice for existence of a match of `[a-zA-Z]\x7b2,\x7d`). -/
def emailAfterAt (cs : List Char) : Bool :=
  (manyPlus isDomainC cs).any fun r =>
    match chTok '.' r with
    | some (a :: b :: _) => a.isAlpha && b.isAlpha
    | _ => false

/-- Match of the email pattern starting at this position. -/
def emailAt (cs : List Char) : Bool :=
  (manyPlus isLocalC cs).any fun r =>
    match chTok '@' r with
    | some r2 => emailAfterAt r2
    | none => false

/-- Existence of an email-pattern match anywhere (no `\b` anchors). -/
def emailTest (s : String) : Bool :=
  scanPrev (fun _ cs => emailAt cs) none s.data

/-- Match of the SSN pattern `\b ddd-dd-dddd \b` starting here. -/
def ssnAt (prev : Option Char) (cs : List Char) : Bool :=
  bnd prev cs.head? &&
  (match ((((digitsN 3 cs).bind (chTok '-')).bind (digitsN 2)).bind
            (chTok '-')).bind (digitsN 4) with
   | some rest => endBnd rest
   | none => false)

/-- Existence of an SSN match anywhere in the string. -/
def ssnTest (s : String) : Bool := scanPrev ssnAt none s.data

/-- Optional credit-card separator `[-\s]?`: both consuming and
non-consuming continuations. -/
def ccSepOpt : List Char → List (List Char)
  | [] => [[]]
  | c :: cs => if c = '-' || isWsC c then [c :: cs, cs] else [c :: cs]

/-- `k` leading groups `\d\x7b4\x7d[-\s]?` followed by a final
`\d\x7b4\x7d\b`. -/
def ccGroups : Nat → List Char → Bool
  | 0, cs =>
    (match digitsN 4 cs with
     | some rest => endBnd rest
     | none => false)
  | k + 1, cs =>
    (match digitsN 4 cs with
     | some rest => (ccSepOpt rest).any (ccGroups k)
     | none => false)

/-- Existence of a credit-card match anywhere in the string. -/
def ccTest (s : String) : Bool :=
  scanPrev (fun prev cs => bnd prev cs.head? && ccGroups 3 cs) none s.data

/-- Optional phone separator `[-.\s]?`. -/
def sep2Opt : List Char → List (List Char)
  | [] => [[]]
  | c :: cs => if c = '-' || c = '.' || isWsC c then [c :: cs, cs] else [c :: cs]

/-- `\d\x7b1,3\x7d`: one digit then up to two more. -/
def digits13 : List Char → List (List Char)
  | [] => []
  | c :: cs => if c.isDigit then upTo Char.isDigit 2 cs else []

/-- Optional international prefix `(?:\+\d\x7b1,3\x7d[-.\s]?)?`. -/
def phonePre (cs : List Char) : List (List Char) :=
  cs :: (match cs with
         | '+' :: r => (digits13 r).flatMap sep2Opt
         | _ => [])

/-- Optional single char. -/
def optCh (x : Char) : List Char → List (List Char)
  | [] => [[]]
  | c :: cs => if c = x then [c :: cs, cs] else [c :: cs]

/-- Body of the phone pattern after the leading `\b`. -/
def phoneBody (cs : List Char) : Bool :=
  (phonePre cs).any fun r1 =>
    (optCh '(' r1).any fun r2 =>
      match digitsN 3 r2 with
      | none => false
      | some r3 =>
        (optCh ')' r3).any fun r4 =>
          (sep2Opt r4).any fun r5 =>
            match digitsN 3 r5 with
            | none => false
            | some r6 =>
              (sep2Opt r6).any fun r7 =>
                match digitsN 4 r7 with
                | some rest => endBnd rest
                | none => false

/-- Existence of a phone-pattern match anywhere; the leading `\b` is a
boundary between the previous char and the first matched char. -/
def phoneTest (s : String) : Bool :=
  scanPrev (fun prev cs => bnd prev cs.head? && phoneBody cs) none s.data

/-- `SemanticFirewall.confirmPII`: try the four PII patterns in order;
the human-readable tag is derived in the source by inspecting the
pattern source text, so a credit-card *and* a phone match both report
`potential credit card` (the phone source also contains `\d\x7b4\x7d`,
tested before the phone fallback). -/
def confirmPII (text : String) : Option String :=
  if emailTest text then some "email address"
  else if ssnTest text then some "SSN"
  else if ccTest text then some "potential credit card"
  else if phoneTest text then some "potential credit card"
  else none

/-! ## Semantic WAF (services/proxy/src/firewall/semanticWAF.ts)

A compiled pattern is a pair of functions supplied by the external JS
regex engine: `firstMatch` models `content.match(pattern)` returning
the first match text when one exists, and `redact` models
`processed.replace(pattern, '[REDACTED]')` with a global pattern.
`Pat.lit` instantiates both for a literal pattern. -/

structure Pat where
  firstMatch : String → Option String
  redact : String → String

/-- The literal-pattern instantiation of a compiled WAF pattern. -/
def Pat.lit (n : String) : Pat where
  firstMatch := fun s => if strContains s n then some n else none
  redact := fun s => replaceAllLit n "[REDACTED]" s

/-- `pattern.test` style check, derived from `firstMatch`. -/
def Pat.test (p : Pat) (s : String) : Bool := (p.firstMatch s).isSome

inductive WafAction where
  | block
  | log
  | redact
deriving DecidableEq

inductive Severity where
  | low
  | medium
  | high
  | critical
deriving DecidableEq

/-- The severity→score mapping of `SemanticWAF.evaluate`. -/
def severityScore : Severity → ℚ
  | .low => 1/5
  | .medium => 2/5
  | .high => 7/10
  | .critical => 1

def severityName : Severity → String
  | .low => "low"
  | .medium => "medium"
  | .high => "high"
  | .critical => "critical"

structure WAFRule where
  id : String
  name : String
  category : String
  severity : Severity
  enabled : Bool
  patterns : List Pat
  action : WafAction

structure WAFDetail where
  ruleId : String
  ruleName : String
  severity : String
  matchedPattern : String
deriving DecidableEq

structure WAFResult where
  blocked : Bool
  matchedRules : List String
  riskScore : ℚ
  sanitizedContent : Option String
  details : List WAFDetail
deriving DecidableEq

/-- Patterns within a rule are tried in order; the first one with a
match is reported together with that match (the source breaks out of
the pattern loop after the first matching pattern of each rule). -/
def ruleFirstMatch (ps : List Pat) (content : String) : Option (Pat × String) :=
  match ps with
  | [] => none
  | p :: rest =>
    match p.firstMatch content with
    | some m => some (p, m)
    | none => ruleFirstMatch rest content

/-- One iteration of the rule loop of `SemanticWAF.evaluate`.  Matching
is always performed against the *original* `content`; redactions are
applied cumulatively to the working copy. -/
def wafStep (content : String) (acc : WAFResult × String) (rule : WAFRule) :
    WAFResult × String :=
  if rule.enabled = false then acc
  else
    match ruleFirstMatch rule.patterns content with
    | none => acc
    | some (p, m) =>
      let res := acc.1
      let res2 : WAFResult :=
        { res with
          matchedRules := res.matchedRules ++ [rule.id]
          details := res.details ++
            [{ ruleId := rule.id, ruleName := rule.name,
               severity := severityName rule.severity,
               matchedPattern := strTake m 50 }]
          riskScore := max res.riskScore (severityScore rule.severity) }
      match rule.action with
      | .block => ({ res2 with blocked := true }, acc.2)
      | .redact => (res2, p.redact acc.2)
      | .log => (res2, acc.2)

/-- `SemanticWAF.evaluate`: fold the rule loop, then report the working
copy as `sanitizedContent` exactly when it differs from the input. -/
def SemanticWAF.evaluate (rules : List WAFRule) (content : String) : WAFResult :=
  let out := rules.foldl (wafStep content)
    ({ blocked := false, matchedRules := [], riskScore := 0,
       sanitizedContent := none, details := [] }, content)
  if out.2 ≠ content then { out.1 with sanitizedContent := some out.2 } else out.1

/-! ## Semantic Firewall (services/proxy/src/firewall/index.ts) -/

inductive FWAction where
  | allowed
  | blocked
  | audited
  | modified
  | shadowBlocked
deriving DecidableEq

structure FirewallDecision where
  allowed : Bool
  action : FWAction
  reason : Option String
  riskScore : ℚ
  intentCategory : Option String
  isShadowEvent : Option Bool
  policyId : Option String
deriving DecidableEq

structure Message where
  role : String
  content : String
deriving DecidableEq

/-- The request context handed to the firewall.  `bodyText` is the
serialized request body (what `JSON.stringify(req.body)` yields, and
the empty string when there is no body); `messages` is the structured
`body.messages` view that the recorder reads. -/
structure AgentRequest where
  orgId : String
  agentId : String
  bodyText : String
  messages : List Message
  headers : List (String × String)
  path : String
  method : String
deriving DecidableEq

structure Intent where
  category : String
  confidence : ℚ
  keywords : List String
deriving DecidableEq

/-- The fixed category/keyword/weight table of `classifyIntent`, in
source iteration order. -/
def intentCategories : List (String × List String × ℚ) :=
  [("destructive",
    ["delete", "remove", "drop", "truncate", "destroy", "kill", "terminate"], 3/2),
   ("data_access",
    ["select", "query", "fetch", "read", "get", "list", "search"], 1/2),
   ("data_modification",
    ["update", "insert", "upsert", "modify", "change", "set"], 1),
   ("external_call",
    ["http", "api", "webhook", "curl", "fetch", "request", "post"], 6/5),
   ("code_execution",
    ["exec", "eval", "run", "execute", "shell", "command", "script"], 7/5),
   ("file_operation",
    ["file", "write", "save", "upload", "download", "path", "directory"], 11/10)]

/-- `SemanticFirewall.classifyIntent`: lowercase the serialized body,
score each category by matched-keyword count times weight, keep the
strictly best score; confidence is `min(0.95, maxScore / 5)`. -/
def classifyIntent (bodyText : String) : Intent :=
  let text := asciiLower bodyText
  let best := intentCategories.foldl
    (fun (acc : ℚ × String × List String) c =>
      let hits := c.2.1.filter (fun kw => strContains text kw)
      let score := (hits.length : ℚ) * c.2.2
      if score > acc.1 then (score, c.1, hits) else acc)
    (0, "unknown", [])
  { category := best.2.1, confidence := min (19/20) (best.1 / 5),
    keywords := best.2.2 }

/-- The intent-based risk weights of `calculateRiskScore`; the JS
lookup falls back to 10 for an unlisted category (`|| 10`). -/
def riskWeight (category : String) : ℚ :=
  if category = "destructive" then 40
  else if category = "code_execution" then 35
  else if category = "external_call" then 25
  else if category = "file_operation" then 20
  else if category = "data_modification" then 15
  else if category = "data_access" then 5
  else 10

/-- `SemanticFirewall.calculateRiskScore`, translated statement by
statement: base 20 plus intent weight, multiplied by confidence, and
only then the `DELETE` (+20) and `admin`-path (+10) adjustments,
finally `Math.min(100, Math.round(score))`. -/
def calculateRiskScore (intent : Intent) (req : AgentRequest) : ℚ :=
  let score1 : ℚ := 20 + riskWeight intent.category
  let score2 : ℚ := score1 * intent.confidence
  let score3 : ℚ := score2 + (if req.method = "DELETE" then 20 else 0)
  let score4 : ℚ := score3 + (if strContains req.path "admin" then 10 else 0)
  min 100 (jsRound score4)

structure PolicyRules where
  blockedCategories : List String
deriving DecidableEq

structure PolicyCheck where
  blocked : Bool
  reason : Option String
  riskScore : ℚ
deriving DecidableEq

/-- `SemanticFirewall.evaluatePolicy`. -/
def evaluatePolicy (intent : Intent) (policy : PolicyRules) : PolicyCheck :=
  if policy.blockedCategories.contains intent.category then
    { blocked := true,
      reason := some ("Policy blocks " ++ intent.category ++ " operations"),
      riskScore := 80 }
  else
    { blocked := false, reason := none, riskScore := 30 }

/-- Injected state of a `SemanticFirewall` instance: config flags, the
active policy id, the compiled `DANGEROUS_PATTERNS` (each an external
regex test paired with its source text), the WAF rule set and the
policy fetched from Redis for the request's org. -/
structure FW where
  shadowMode : Bool
  blockPII : Bool
  blockDestructive : Bool
  policyId : String
  dangerTests : List ((String → Bool) × String)
  wafRules : List WAFRule
  policy : Option PolicyRules

/-- `SemanticFirewall.checkDangerousPatterns`: first pattern whose test
fires wins; the reported name is the pattern source truncated to 50. -/
def checkDangerousPatterns : List ((String → Bool) × String) → String → Option String
  | [], _ => none
  | (t, src) :: rest, text =>
    if t text then some (strTake src 50) else checkDangerousPatterns rest text

/-- `SemanticFirewall.checkPIIProbable`: split on whitespace, keep the
first 100 words, test each against the Bloom filter (whose membership
function, with its false positives, is the parameter `bloomHas`).
This method exists in the source but is never invoked by `evaluate`. -/
def checkPIIProbable (bloomHas : String → Bool) (text : String) : Bool :=
  ((wordsOf text).take 100).any bloomHas

/-- The twelve markers preloaded into the PII Bloom filter. -/
def piiMarkers : List String :=
  ["@gmail.com", "@yahoo.com", "@hotmail.com", "@outlook.com",
   "ssn:", "social security", "credit card", "card number",
   "password:", "api_key:", "bearer ", "authorization:"]

/-- The block reason built from a WAF result:
`WAF ${topRule?.ruleId}: ${topRule?.ruleName}` with `details[0]`. -/
def wafReasonOf (w : WAFResult) : String :=
  match w.details.head? with
  | some d => "WAF " ++ d.ruleId ++ ": " ++ d.ruleName
  | none => "WAF undefined: undefined"

/-- The category passed by the WAF branch:
`topRule?.ruleId.toLowerCase() || 'waf_violation'`. -/
def wafCategoryOf (w : WAFResult) : String :=
  match w.details.head? with
  | some d => asciiLower d.ruleId
  | none => "waf_violation"

/-- `SemanticFirewall.blocked`: under shadow mode the denial is turned
into an allowed `shadow_blocked` decision with the same reason, risk
and category. -/
def blockedFn (fw : FW) (reason : String) (risk : ℚ) (category : String) :
    FirewallDecision :=
  if fw.shadowMode then
    { allowed := true, action := .shadowBlocked, reason := some reason,
      riskScore := risk, intentCategory := some category,
      isShadowEvent := some true, policyId := some fw.policyId }
  else
    { allowed := false, action := .blocked, reason := some reason,
      riskScore := risk, intentCategory := some category,
      isShadowEvent := some false, policyId := some fw.policyId }

/-- The allowed-path decision (`audited` above risk 70).  The source
does not set `reason`, `isShadowEvent` or `policyId` on this path. -/
def passedDecision (intent : Intent) (req : AgentRequest) : FirewallDecision :=
  let rs := calculateRiskScore intent req
  { allowed := true, action := if rs > 70 then .audited else .allowed,
    reason := none, riskScore := rs, intentCategory := some intent.category,
    isShadowEvent := none, policyId := none }

/-- Which of the four `this.blocked(...)` call sites of `evaluate`
fires, with its literal arguments, or the classified intent with which
the pipeline falls through to the allowed path. -/
inductive EvalOutcome where
  | denied (reason : String) (risk : ℚ) (category : String)
  | passed (intent : Intent)

/-- The stage pipeline of `SemanticFirewall.evaluate` up to the choice
of outcome.  Stage 1 calls `confirmPII` directly on the body text (the
Bloom filter of `checkPIIProbable` is not consulted); stage 2 is the
dangerous-pattern scan; stage 2.5 the WAF; then intent classification,
the policy check and the risk score.  None of this reads
`fw.shadowMode`. -/
def evalCore (fw : FW) (req : AgentRequest) : EvalOutcome :=
  let bodyStr := req.bodyText
  match (if fw.blockPII ∧ bodyStr ≠ "" then confirmPII bodyStr else none) with
  | some m => .denied ("PII detected: " ++ m) 90 "data_exfiltration"
  | none =>
    match (if fw.blockDestructive then checkDangerousPatterns fw.dangerTests bodyStr
           else none) with
    | some m => .denied ("Dangerous pattern: " ++ m) 95 "destructive"
    | none =>
      let w := SemanticWAF.evaluate fw.wafRules bodyStr
      if w.blocked then
        .denied (wafReasonOf w) (w.riskScore * 100) (wafCategoryOf w)
      else
        let intent := classifyIntent req.bodyText
        match fw.policy with
        | some p =>
          let pr := evaluatePolicy intent p
          if pr.blocked then
            .denied (pr.reason.getD "") pr.riskScore intent.category
          else
            .passed intent
        | none => .passed intent

/-- `SemanticFirewall.evaluate` (the wall-clock `latencyMs` field is
not modeled; the fail-open catch handler has no counterpart because the
embedding is total). -/
def SemanticFirewall.evaluate (fw : FW) (req : AgentRequest) : FirewallDecision :=
  match evalCore fw req with
  | .denied r k c => blockedFn fw r k c
  | .passed intent => passedDecision intent req

/-! ## Flight Recorder (services/proxy/src/recorder/index.ts) -/

structure TraceContext where
  traceId : String
  spanId : String
  parentSpanId : Option String
  startTime : ℚ
deriving DecidableEq

structure ReasoningStep where
  stepId : Nat
  content : String
deriving DecidableEq

/-- The argument record of `FlightRecorder.record`.  The response body
is opaque; the tool-call extraction from `response.choices[0]` is not
modeled (it only fills a display field). -/
structure TraceData where
  request : AgentRequest
  response : Option String
  decision : FirewallDecision
  modelProvider : Option String
  modelName : Option String
  inputTokens : Option Nat
  outputTokens : Option Nat
  costUsd : Option ℚ
  reasoningSteps : Option (List ReasoningStep)
  clientIp : Option String
  userAgent : Option String
deriving DecidableEq

/-- The fixed `TOKEN_PRICING` table (USD per input/output token),
decimal constants modeled exactly. -/
def TOKEN_PRICING : List (String × ℚ × ℚ) :=
  [("gpt-4", 3/100000, 6/100000),
   ("gpt-4-turbo", 1/100000, 3/100000),
   ("gpt-3.5-turbo", 5/10000000, 15/10000000),
   ("claude-3-opus", 15/1000000, 75/1000000),
   ("claude-3-sonnet", 3/1000000, 15/1000000),
   ("claude-3-haiku", 25/100000000, 125/100000000)]

/-- `FlightRecorder.calculateCost` with the gpt-3.5-turbo fallback. -/
def calculateCost (model : String) (inputTokens outputTokens : Nat) : ℚ :=
  let p := ((TOKEN_PRICING.lookup model).getD (5/10000000, 15/10000000))
  (inputTokens : ℚ) * p.1 + (outputTokens : ℚ) * p.2

/-- `FlightRecorder.getRequestType`. -/
def getRequestType (path : String) : String :=
  if strContains path "chat/completions" then "llm_call"
  else if strContains path "embeddings" then "embedding"
  else if strContains path "images" then "image_generation"
  else if strContains path "audio" then "audio"
  else if strContains path "files" then "file_operation"
  else "api_call"

/-- Reasoning-step extraction of `extractReasoningChain`: every
assistant message with non-empty content, indexed, truncated to 500. -/
def extractReasoningSteps (msgs : List Message) : List ReasoningStep :=
  (msgs.enum.filter (fun im => im.2.role == "assistant" && im.2.content != "")).map
    (fun im => { stepId := im.1, content := strTake im.2.content 500 })

/-- JS truthiness of the optional cost / token / model fields used by
the cost-derivation guard in `record`. -/
def truthyQ : Option ℚ → Bool
  | some c => c != 0
  | none => false

def truthyN : Option Nat → Bool
  | some n => n != 0
  | none => false

def truthyS : Option String → Bool
  | some s => s != ""
  | none => false

/-- Cost derivation of `record`:
`if (!costUsd && inputTokens && outputTokens && modelName) costUsd = calculateCost(...)`. -/
def deriveCost (d : TraceData) : Option ℚ :=
  if truthyQ d.costUsd then d.costUsd
  else if truthyN d.inputTokens && truthyN d.outputTokens && truthyS d.modelName then
    some (calculateCost (d.modelName.getD "") (d.inputTokens.getD 0) (d.outputTokens.getD 0))
  else d.costUsd

/-- The persisted trace row assembled by `record` (opaque
request/response payloads, the always-`undefined` `policyApplied`, and
the tool-call list are not modeled). -/
structure Trace where
  traceId : String
  spanId : String
  parentSpanId : Option String
  orgId : String
  agentId : String
  agentName : Option String
  agentFramework : Option String
  requestType : String
  intentCategory : Option String
  riskScore : ℚ
  modelProvider : Option String
  modelName : Option String
  inputTokens : Option Nat
  outputTokens : Option Nat
  costUsd : Option ℚ
  reasoningSteps : List ReasoningStep
  actionTaken : FWAction
  blockReason : Option String
  clientIp : Option String
  userAgent : Option String
  durationMs : ℚ
deriving DecidableEq

/-- Trace assembly inside `record`; `now` models `performance.now()` at
the time of the call. -/
def mkTrace (now : ℚ) (ctx : TraceContext) (d : TraceData) : Trace :=
  { traceId := ctx.traceId
    spanId := ctx.spanId
    parentSpanId := ctx.parentSpanId
    orgId := d.request.orgId
    agentId := d.request.agentId
    agentName := d.request.headers.lookup "x-agent-name"
    agentFramework := d.request.headers.lookup "x-agent-framework"
    requestType := getRequestType d.request.path
    intentCategory := d.decision.intentCategory
    riskScore := d.decision.riskScore
    modelProvider := d.modelProvider
    modelName := d.modelName
    inputTokens := d.inputTokens
    outputTokens := d.outputTokens
    costUsd := deriveCost d
    reasoningSteps := d.reasoningSteps.getD (extractReasoningSteps d.request.messages)
    actionTaken := d.decision.action
    blockReason := d.decision.reason
    clientIp := d.clientIp
    userAgent := d.userAgent
    durationMs := jsRound (now - ctx.startTime) }

/-- A buffered entry: the source pushes `{ ...data, response: trace }`;
the flush later reads exactly the decision action and that trace. -/
structure BufEntry where
  decision : FirewallDecision
  trace : Trace
deriving DecidableEq

/-- The recorder's mutable state: the in-memory buffer and the traces
persisted in the store, in write order. -/
structure RecorderState where
  buffer : List BufEntry
  store : List Trace
deriving DecidableEq

/-- `FlightRecorder.record`: always append to the buffer; additionally
insert into the store immediately (before returning) exactly when the
decision action is `blocked`. -/
def FlightRecorder.record (now : ℚ) (st : RecorderState) (ctx : TraceContext)
    (d : TraceData) : RecorderState :=
  let tr := mkTrace now ctx d
  let st2 : RecorderState := { st with buffer := st.buffer ++ [⟨d.decision, tr⟩] }
  if d.decision.action = .blocked then
    { st2 with store := st2.store ++ [tr] }
  else st2

/-- `FlightRecorder.flush`: splice off up to 100 entries; on success
write the ones not already inserted (action ≠ blocked); on failure the
batch is re-prepended, which restores the original buffer. -/
def FlightRecorder.flush (st : RecorderState) (writeOk : Bool) : RecorderState :=
  if st.buffer = [] then st
  else if writeOk then
    { buffer := st.buffer.drop 100
      store := st.store ++
        ((st.buffer.take 100).filter (fun e => e.decision.action != .blocked)).map
          (fun e => e.trace) }
  else st

/-! ## Proxy route (services/proxy/src/routes/proxy.ts, current
version with cache / workers / emergency stop) -/

/-- `getProvider`: inspect the Authorization header value. -/
def getProvider (headers : List (String × String)) : String :=
  let auth := (headers.lookup "authorization").getD ""
  if strContains auth "sk-ant-" then "anthropic"
  else if strContains auth "AIza" then "google"
  else "openai"

/-- `extractPromptText`: messages array ⇒ `role:content` joined by `|`;
legacy `prompt` / Anthropic `human_prompt` are carried as an optional
pre-serialized string; otherwise no cache participation. -/
def extractPromptText (messages : List Message) (legacy : Option String) :
    Option String :=
  match messages with
  | m :: ms =>
    some (String.intercalate "|" ((m :: ms).map (fun x => x.role ++ ":" ++ x.content)))
  | [] => legacy

/-- Everything the route handler consults that originates outside the
handler itself: the emergency flag, token presence, a pre-request
worker short-circuit status, the firewall decision, the traffic
controller outcome, the cache outcome and the upstream outcome. -/
structure ProxyEnv where
  emergencyStopped : Bool
  hasToken : Bool
  preWorkerStatus : Option Nat
  request : AgentRequest
  decision : FirewallDecision
  resourceFound : Bool
  conflictRejected : Bool
  cacheHit : Bool
  upstreamOk : Bool
  upstreamStatus : Nat
  usageIn : Option Nat
  usageOut : Option Nat
  responseBody : Option String
  bodyModel : Option String
  clientIp : Option String
  userAgent : Option String
  now : ℚ
  startTime : ℚ
deriving DecidableEq

/-- `const modelName = req.body?.model || 'gpt-3.5-turbo'`. -/
def envModelName (env : ProxyEnv) : String :=
  match env.bodyModel with
  | some m => if m = "" then "gpt-3.5-turbo" else m
  | none => "gpt-3.5-turbo"

/-- The `TraceData` recorded on the firewall-block path. -/
def blockedTD (env : ProxyEnv) : TraceData :=
  { request := env.request, response := none, decision := env.decision,
    modelProvider := none, modelName := none, inputTokens := none,
    outputTokens := none, costUsd := none, reasoningSteps := none,
    clientIp := env.clientIp, userAgent := env.userAgent }

/-- The `TraceData` recorded on the success path. -/
def successTD (env : ProxyEnv) : TraceData :=
  { request := env.request, response := env.responseBody,
    decision := env.decision,
    modelProvider := some (getProvider env.request.headers),
    modelName := some (envModelName env), inputTokens := env.usageIn,
    outputTokens := env.usageOut, costUsd := none, reasoningSteps := none,
    clientIp := env.clientIp, userAgent := env.userAgent }

structure ProxyOut where
  status : Nat
  headers : List (String × String)
deriving DecidableEq

/-- The route handler, in source order: emergency stop (503), missing
token (401), pre-worker short-circuit, firewall block (record, then
403 with *no* Switchboard headers), resource conflict (409), cache
lookup / upstream forward (a failed upstream with no cache hit ends in
the catch-all 502), then record and reply with the four
`X-Switchboard-*` headers.  Post-response workers (which can only
replace the response payload) and the best-effort cache store are not
modeled. -/
def handleProxy (env : ProxyEnv) (ctx : TraceContext) (st : RecorderState) :
    ProxyOut × RecorderState :=
  if env.emergencyStopped then ({ status := 503, headers := [] }, st)
  else if env.hasToken = false then ({ status := 401, headers := [] }, st)
  else
    match env.preWorkerStatus with
    | some s => ({ status := s, headers := [] }, st)
    | none =>
      if env.decision.allowed = false then
        ({ status := 403, headers := [] },
         FlightRecorder.record env.now st ctx (blockedTD env))
      else if env.resourceFound && env.conflictRejected then
        ({ status := 409, headers := [] }, st)
      else if env.cacheHit = false ∧ env.upstreamOk = false then
        ({ status := 502, headers := [] }, st)
      else
        ({ status := if env.cacheHit then 200 else env.upstreamStatus,
           headers :=
             [("X-Switchboard-Trace-Id", ctx.traceId),
              ("X-Switchboard-Latency-Ms", toString (jsRound (env.now - env.startTime))),
              ("X-Switchboard-Risk-Score", toString env.decision.riskScore),
              ("X-Switchboard-Cache", if env.cacheHit then "HIT" else "MISS")] },
         FlightRecorder.record env.now st ctx (successTD env))

/-! ## Traffic Controller (services/proxy/src/traffic/index.ts) -/

inductive Resolution where
  | granted
  | queued
  | rejected
deriving DecidableEq

structure ConflictResult where
  resolution : Resolution
  waitMs : Option Int
  reason : Option String
deriving DecidableEq

/-- The lock value stored in Redis by `acquireLock`. -/
structure LockInfo where
  agentId : String
  acquiredAt : Int
deriving DecidableEq

/-- `TrafficController.resolveConflict`: same holder ⇒ granted; read ⇒
granted with a stale-data warning; otherwise the remaining TTL (from
the controller's configured `lockTtl`) decides between queued (strict
`0 < remaining < 5000`) and rejected. -/
def resolveConflict (lockTtlSeconds : Int) (agentId : String) (lock : LockInfo)
    (isWrite : Bool) (now : Int) : ConflictResult :=
  if lock.agentId = agentId then
    { resolution := .granted, waitMs := none, reason := none }
  else if isWrite = false then
    { resolution := .granted, waitMs := none,
      reason := some "Read allowed during write lock (may see stale data)" }
  else
    let lockAge := now - lock.acquiredAt
    let remainingTtl := lockTtlSeconds * 1000 - lockAge
    if 0 < remainingTtl ∧ remainingTtl < 5000 then
      { resolution := .queued, waitMs := some (remainingTtl + 100),
        reason := some ("Resource locked by " ++ lock.agentId ++ ", expires in "
          ++ toString remainingTtl ++ "ms") }
    else
      { resolution := .rejected, waitMs := none,
        reason := some ("Resource locked by " ++ lock.agentId) }

/-- `TrafficController.isWriteOperation`. -/
def isWriteOperation (bodyText : String) (method : String) : Bool :=
  if ["POST", "PUT", "PATCH", "DELETE"].contains (asciiUpper method) then true
  else
    let content := asciiLower bodyText
    ["insert", "update", "delete", "create", "drop", "modify", "write", "save"].any
      (fun kw => strContains content kw)

/-! ## Radar anomaly detector (services/proxy/src/radar/index.ts)

The SQL of `detectTokenSpikes` is modeled over an in-memory list of
trace rows.  The query references columns `token_count` and
`created_at`; the `agent_traces` schema shipped in the init scripts has
neither (its columns are `input_tokens`/`output_tokens` and
`timestamp`), so on the shipped schema the query errors and is caught.
The model gives the query the row shape it asks for, to exhibit the
behavior of the detection logic itself.  `z > k` with the sample
standard deviation is encoded in `ℚ` as
`0 < var ∧ 0 < dev ∧ k²·var < dev²` (the `NULLIF(stddev,0)` guard makes
a zero deviation yield no row). -/

structure TraceRow where
  traceId : String
  orgId : String
  agentId : String
  tokenCount : Int
  createdAt : Int
deriving DecidableEq

/-- Rows in the 24-hour stats window. -/
def in24h (now : Int) (r : TraceRow) : Bool := now - 86400000 < r.createdAt

/-- Rows in the 5-minute recent window. -/
def recent5m (now : Int) (r : TraceRow) : Bool := now - 300000 < r.createdAt

/-- The `GROUP BY agent_id, org_id` groups of the stats CTE. -/
def statGroups (db : List TraceRow) (now : Int) : List (String × String) :=
  ((db.filter (in24h now)).map (fun r => (r.agentId, r.orgId))).eraseDups

/-- The rows of one stats group. -/
def groupRows (db : List TraceRow) (now : Int) (a o : String) : List TraceRow :=
  db.filter (fun r => in24h now r && r.agentId == a && r.orgId == o)

def meanOf (xs : List Int) : ℚ := ((xs.sum : ℤ) : ℚ) / (xs.length : ℚ)

/-- Sample variance (Postgres `STDDEV` squared). -/
def varSample (xs : List Int) : ℚ :=
  (xs.map (fun x => ((x : ℚ) - meanOf xs) * ((x : ℚ) - meanOf xs))).sum
    / (((xs.length : ℚ)) - 1)

/-- `(x - mean)/stddev > k`, encoded without square roots. -/
def zExceeds (xs : List Int) (x : Int) (k : ℚ) : Bool :=
  let dev := (x : ℚ) - meanOf xs
  decide (0 < varSample xs) && decide (0 < dev) &&
    decide (k * k * varSample xs < dev * dev)

/-- The join of recent traces against qualifying agent stats groups
(`HAVING COUNT(*) > 10`, joined on `agent_id` alone). -/
def spikePairs (db : List TraceRow) (now : Int) :
    List (TraceRow × String × String) :=
  (db.filter (recent5m now)).flatMap fun r =>
    ((statGroups db now).filter fun g =>
        g.1 == r.agentId &&
        (let xs := (groupRows db now g.1 g.2).map (fun t => t.tokenCount)
         decide (10 < xs.length) && zExceeds xs r.tokenCount 3)).map
      fun g => (r, g)

/-- The anomaly event built per result row (the random
`crypto.randomUUID()` id and the cosmetic `details` formatting are not
modeled). -/
structure Anomaly where
  orgId : String
  agentId : String
  anomalyType : String
  severity : String
  tokenCount : Int
deriving DecidableEq

/-- `RadarDetector.detectTokenSpikes`: one broadcast event per result
row of the spike query, severity `critical` above z-score 5. -/
def detectTokenSpikes (db : List TraceRow) (now : Int) : List Anomaly :=
  (spikePairs db now).map fun rg =>
    { orgId := rg.1.orgId, agentId := rg.1.agentId,
      anomalyType := "high_token_usage",
      severity :=
        if zExceeds ((groupRows db now rg.2.1 rg.2.2).map (fun t => t.tokenCount))
            rg.1.tokenCount 5
        then "critical" else "high",
      tokenCount := rg.1.tokenCount }

/-! ## Semantic Cache (services/proxy/src/cache/semanticCache.ts)

`hashPrompt` (first 16 hex chars of SHA-256) and the embedding model
with its cosine distance are external; they enter as the function
parameters `hp` and `dist` (distance applied to the 512-char
truncations that `generateEmbedding` embeds). -/

structure CacheConfig where
  enabled : Bool
  similarityThreshold : ℚ
  ttlSeconds : ℚ
deriving DecidableEq

def DEFAULT_CACHE_CONFIG : CacheConfig :=
  { enabled := true, similarityThreshold := 1/10, ttlSeconds := 86400 }

structure KVEntry where
  key : String
  value : String
  expiresAt : ℚ
deriving DecidableEq

/-- `semantic_cache` row (`cache_id` is a `gen_random_uuid()` UUID;
`embKey` stands for the stored prompt embedding, keyed by the 512-char
truncation it was computed from). -/
structure CacheRow where
  cacheId : String
  orgId : String
  model : String
  promptHash : String
  embKey : String
  promptText : String
  responseText : String
  responseTokens : Option Nat
  hitCount : Nat
  costSaved : ℚ
  expiresAt : ℚ
deriving DecidableEq

structure CacheState where
  kv : List KVEntry
  rows : List CacheRow
deriving DecidableEq

structure CacheEntry where
  cacheId : String
  responseText : String
  similarity : ℚ
deriving DecidableEq

/-- The Redis shortcut key `cache:{org}:{model}:{hash}`. -/
def cacheKey (orgId model h : String) : String :=
  "cache:" ++ orgId ++ ":" ++ model ++ ":" ++ h

/-- Redis `GET`: an entry is visible only before its expiry. -/
def kvGet (kv : List KVEntry) (now : ℚ) (k : String) : Option String :=
  match kv.find? (fun e => e.key == k) with
  | some e => if now < e.expiresAt then some e.value else none
  | none => none

/-- Redis `SETEX`. -/
def kvSet (kv : List KVEntry) (k v : String) (expiresAt : ℚ) : List KVEntry :=
  ⟨k, v, expiresAt⟩ :: kv.filter (fun e => e.key != k)

/-- Best row of the pgvector ANN query (`ORDER BY distance LIMIT 1`). -/
def minByDist (dist : String → String → ℚ) (q : String) :
    List CacheRow → Option CacheRow
  | [] => none
  | r :: rs =>
    match minByDist dist q rs with
    | none => some r
    | some b => if dist q r.embKey ≤ dist q b.embKey then some r else some b

/-- `SemanticCache.lookup`: exact-hash Redis path first — note that the
hit is returned with `cacheId := promptHash`, not the row's UUID
`cache_id` — then the ANN query over non-expired rows below the
distance threshold. -/
def SemanticCache.lookup (hp : String → String) (dist : String → String → ℚ)
    (cfg : CacheConfig) (st : CacheState) (now : ℚ)
    (orgId model promptText : String) : Option CacheEntry :=
  if cfg.enabled = false then none
  else
    match kvGet st.kv now (cacheKey orgId model (hp promptText)) with
    | some v => some { cacheId := hp promptText, responseText := v, similarity := 1 }
    | none =>
      let q := strTake promptText 512
      let cand := st.rows.filter fun r =>
        r.orgId == orgId && r.model == model && decide (now < r.expiresAt) &&
          decide (dist q r.embKey < cfg.similarityThreshold)
      match minByDist dist q cand with
      | some r =>
        some { cacheId := r.cacheId, responseText := r.responseText,
               similarity := 1 - dist q r.embKey }
      | none => none

/-- `SemanticCache.store`: write the Redis shortcut with the configured
TTL and upsert the durable row on `(org, model, prompt_hash)`.  A fresh
insert leaves `expires_at` to the schema default `NOW() + 24 hours`;
only the conflict update applies the configured TTL. -/
def SemanticCache.store (hp : String → String) (cfg : CacheConfig)
    (st : CacheState) (now : ℚ) (newId : String)
    (orgId model promptText responseText : String)
    (responseTokens : Option Nat) : CacheState :=
  if cfg.enabled = false then st
  else
    let h := hp promptText
    let kv2 := kvSet st.kv (cacheKey orgId model h) responseText (now + cfg.ttlSeconds)
    let isConflict := st.rows.any fun r =>
      r.orgId == orgId && r.model == model && r.promptHash == h
    let rows2 :=
      if isConflict then
        st.rows.map fun r =>
          if r.orgId == orgId && r.model == model && r.promptHash == h then
            { r with responseText := responseText,
                     responseTokens := responseTokens,
                     expiresAt := now + cfg.ttlSeconds }
          else r
      else
        st.rows ++
          [{ cacheId := newId, orgId := orgId, model := model, promptHash := h,
             embKey := strTake promptText 512, promptText := strTake promptText 1000,
             responseText := responseText, responseTokens := responseTokens,
             hitCount := 0, costSaved := 0, expiresAt := now + 86400 }]
    { kv := kv2, rows := rows2 }

/-- `SemanticCache.recordHit`: `UPDATE semantic_cache SET hit_count =
hit_count + 1, cost_saved = cost_saved + $2 WHERE cache_id = $1`;
errors are caught and never surfaced. -/
def SemanticCache.recordHit (rows : List CacheRow) (cacheId : String)
    (costSaved : ℚ) : List CacheRow :=
  rows.map fun r =>
    if r.cacheId == cacheId then
      { r with hitCount := r.hitCount + 1, costSaved := r.costSaved + costSaved }
    else r

/-! ## Concrete scenario inputs

Shared concrete values used to evaluate the embedded operations: a
firewall instance with the default flags, a request whose body carries
an SSN (seed test 2 of the spec), and the decisions it produces. -/

/-- A firewall instance with the default environment flags (shadow off,
PII and destructive blocking on) and no custom WAF rules or policy. -/
def fwBase : FW :=
  { shadowMode := false, blockPII := true, blockDestructive := true,
    policyId := "default", dangerTests := [], wafRules := [], policy := none }

/-- A request whose serialized body contains an SSN. -/
def reqSSN : AgentRequest :=
  { orgId := "org_demo", agentId := "agent-1",
    bodyText := "my ssn is 123-45-6789", messages := [], headers := [],
    path := "/v1/chat/completions", method := "POST" }

/-- The decision the firewall produces for `reqSSN` with shadow off. -/
def blockedDec : FirewallDecision :=
  { allowed := false, action := .blocked, reason := some "PII detected: SSN",
    riskScore := 90, intentCategory := some "data_exfiltration",
    isShadowEvent := some false, policyId := some "default" }

/-- The same decision under shadow mode. -/
def shadowDec : FirewallDecision :=
  { blockedDec with allowed := true, action := .shadowBlocked,
                    isShadowEvent := some true }

/-- Trace data for `reqSSN` under a given decision. -/
def tdOf (d : FirewallDecision) : TraceData :=
  { request := reqSSN, response := none, decision := d, modelProvider := none,
    modelName := none, inputTokens := none, outputTokens := none,
    costUsd := none, reasoningSteps := none, clientIp := some "127.0.0.1",
    userAgent := none }

/-- A concrete trace context. -/
def ctxA : TraceContext :=
  { traceId := "t-0001", spanId := "s-0001", parentSpanId := none,
    startTime := 0 }

/-! ## C1 — Flight Recorder write policy -/

/-- C1 counterexample: a call to `FlightRecorder.record` whose decision
action is `shadow_blocked` performs no store write at all before
returning (the store stays empty); only the in-memory buffer receives
the trace, so the claimed immediate synchronous write for
`shadow_blocked` does not happen. -/
theorem C1_cex_shadow_blocked_not_immediate :
    (tdOf shadowDec).decision.action = FWAction.shadowBlocked
    ∧ (FlightRecorder.record 5 ⟨[], []⟩ ctxA (tdOf shadowDec)).store = []
    ∧ (FlightRecorder.record 5 ⟨[], []⟩ ctxA (tdOf shadowDec)).buffer
        = [⟨shadowDec, mkTrace 5 ctxA (tdOf shadowDec)⟩] := by
  refine ⟨by decide, by decide, by decide⟩

/-- C1 (amended): `FlightRecorder.record` appends every trace to the
in-memory buffer, and performs the immediate synchronous store write —
completed before `record` returns — exactly when the decision action is
`blocked` (not for `shadow_blocked`); the periodic flush then writes
the first 100 buffered entries whose action is not `blocked` (those
were already inserted), and a failed flush leaves the state unchanged
(the batch is re-prepended). -/
theorem C1_record_write_policy (now : ℚ) (st : RecorderState)
    (ctx : TraceContext) (d : TraceData) :
    (FlightRecorder.record now st ctx d).buffer
      = st.buffer ++ [⟨d.decision, mkTrace now ctx d⟩]
    ∧ (FlightRecorder.record now st ctx d).store
      = st.store ++ (if d.decision.action = FWAction.blocked
                     then [mkTrace now ctx d] else [])
    ∧ (∀ st2 : RecorderState,
        (FlightRecorder.flush st2 true).store
          = st2.store ++ ((st2.buffer.take 100).filter
              (fun e => e.decision.action != FWAction.blocked)).map
                (fun e => e.trace))
    ∧ (∀ st2 : RecorderState, FlightRecorder.flush st2 false = st2) := by
  refine ⟨?_, ?_, ?_, ?_⟩
  · by_cases h : d.decision.action = FWAction.blocked <;>
      simp [FlightRecorder.record, h]
  · by_cases h : d.decision.action = FWAction.blocked <;>
      simp [FlightRecorder.record, h]
  · intro st2
    by_cases h : st2.buffer = [] <;> simp [FlightRecorder.flush, h]
  · intro st2
    by_cases h : st2.buffer = [] <;> simp [FlightRecorder.flush, h]

/-! ## C2 — `X-Switchboard-Trace-Id` response header -/

/-- A proxy environment for a firewall-blocked request. -/
def envBlocked : ProxyEnv :=
  { emergencyStopped := false, hasToken := true, preWorkerStatus := none,
    request := reqSSN, decision := blockedDec, resourceFound := false,
    conflictRejected := false, cacheHit := false, upstreamOk := true,
    upstreamStatus := 200, usageIn := none, usageOut := none,
    responseBody := none, bodyModel := some "gpt-3.5-turbo",
    clientIp := some "127.0.0.1", userAgent := none, now := 5,
    startTime := 0 }

/-- C2 counterexample: on a firewall-blocked request the handler
persists a trace (the recorder state gains one entry, with a store
write) yet returns the 403 response without any
`X-Switchboard-Trace-Id` header, so the claimed "header present iff a
trace was created" equivalence fails. -/
theorem C2_cex_403_trace_without_header :
    (handleProxy envBlocked ctxA ⟨[], []⟩).1.status = 403
    ∧ (handleProxy envBlocked ctxA ⟨[], []⟩).1.headers.lookup
        "X-Switchboard-Trace-Id" = none
    ∧ (handleProxy envBlocked ctxA ⟨[], []⟩).2.buffer.length = 1
    ∧ (handleProxy envBlocked ctxA ⟨[], []⟩).2.store.length = 1 := by
  refine ⟨by decide, by decide, by decide, by decide⟩

/-- The branch conditions under which the handler reaches the final
success response (where the Switchboard headers are set). -/
def successPath (env : ProxyEnv) : Bool :=
  !env.emergencyStopped && env.hasToken && env.preWorkerStatus.isNone
    && env.decision.allowed && !(env.resourceFound && env.conflictRejected)
    && (env.cacheHit || env.upstreamOk)

/-- The branch conditions of the firewall-block 403 path. -/
def blockedPath (env : ProxyEnv) : Bool :=
  !env.emergencyStopped && env.hasToken && env.preWorkerStatus.isNone
    && !env.decision.allowed

/-- C2 (amended): the `X-Switchboard-Trace-Id` header is present
exactly on the success path, where its value is the trace id of the
context created for this request; a trace is recorded both on the
success path and on the firewall-block path, so the 403 response has a
persisted trace but no trace-id header. -/
theorem C2_header_iff_success_path (env : ProxyEnv) (ctx : TraceContext)
    (st : RecorderState) :
    ((handleProxy env ctx st).1.headers.lookup "X-Switchboard-Trace-Id"
      = if successPath env then some ctx.traceId else none)
    ∧ ((handleProxy env ctx st).2.buffer.length
      = st.buffer.length + (if successPath env || blockedPath env then 1 else 0)) := by
  cases hE : env.emergencyStopped <;>
    cases hT : env.hasToken <;>
      rcases hW : env.preWorkerStatus with _ | s <;>
        cases hA : env.decision.allowed <;>
          cases hR : env.resourceFound <;>
            cases hC : env.conflictRejected <;>
              cases hH : env.cacheHit <;>
                cases hU : env.upstreamOk <;>
  simp [handleProxy, successPath, blockedPath, FlightRecorder.record,
        List.lookup, hE, hT, hW, hA, hR, hC, hH, hU] <;>
    (try (split <;> simp))

/-! ## C3 — WAF redaction -/

/-- A redact rule with two patterns, instantiated with literal
matchers (an email and an SSN occurrence, standing for the first two
patterns of the default rule WAF-103).  The rule engine treats
patterns opaquely, so the claim's universal statement covers it. -/
def redactRule : WAFRule :=
  { id := "WAF-103", name := "PII Exfiltration Detection",
    category := "pii_exfiltration", severity := .high, enabled := true,
    patterns := [Pat.lit "user@example.com", Pat.lit "123-45-6789"],
    action := .redact }

/-- C3 counterexample: on a body containing matches of both patterns of
a redact rule, the evaluation replaces only the first pattern's match;
the returned sanitized body still contains the substring
`123-45-6789`, which matches the rule's second pattern — refuting
"the post-firewall body contains no substring matching any of that
rule's patterns". -/
theorem C3_cex_second_pattern_survives :
    redactRule.action = WafAction.redact
    ∧ (SemanticWAF.evaluate [redactRule] "user@example.com 123-45-6789").sanitizedContent
        = some "[REDACTED] 123-45-6789"
    ∧ (SemanticWAF.evaluate [redactRule] "user@example.com 123-45-6789").blocked = false
    ∧ (Pat.lit "123-45-6789").test "[REDACTED] 123-45-6789" = true := by
  refine ⟨rfl, by decide, by decide, by decide⟩

/-- C3 (amended): for a redact rule, only the first pattern (in rule
order) that has a match is applied; every occurrence of that pattern in
the working copy is rewritten to the literal `[REDACTED]` by the global
replace, the result is returned as the sanitized content exactly when
it differs from the input, and the rule's later patterns are not
applied, so their matches may survive. -/
theorem C3_redact_applies_first_matching_pattern_only (r : WAFRule)
    (content : String) (hEn : r.enabled = true) (hAct : r.action = WafAction.redact) :
    SemanticWAF.evaluate [r] content =
      (match ruleFirstMatch r.patterns content with
       | none =>
         { blocked := false, matchedRules := [], riskScore := 0,
           sanitizedContent := none, details := [] }
       | some (p, m) =>
         { blocked := false, matchedRules := [r.id],
           riskScore := max 0 (severityScore r.severity),
           sanitizedContent :=
             if p.redact content = content then none else some (p.redact content),
           details := [{ ruleId := r.id, ruleName := r.name,
                         severity := severityName r.severity,
                         matchedPattern := strTake m 50 }] }) := by
  rcases h : ruleFirstMatch r.patterns content with _ | ⟨p, m⟩
  · simp [SemanticWAF.evaluate, wafStep, hEn, h]
  · by_cases hr : p.redact content = content <;>
      simp [SemanticWAF.evaluate, wafStep, hEn, hAct, h, hr]

/-- A single-literal redact rule used to instantiate the C3 theorem. -/
def redactRuleW : WAFRule :=
  { id := "WAF-900", name := "Custom Redactor", category := "pii_exfiltration",
    severity := .medium, enabled := true, patterns := [Pat.lit "abc"],
    action := .redact }

/-- C3 witness: the amended theorem evaluated on a concrete redact rule
and body. -/
theorem C3_redact_applies_first_matching_pattern_only_witness :
    SemanticWAF.evaluate [redactRuleW] "zabcq abc" =
      { blocked := false, matchedRules := ["WAF-900"],
        riskScore := max 0 (severityScore Severity.medium),
        sanitizedContent := some "z[REDACTED]q [REDACTED]",
        details := [{ ruleId := "WAF-900", ruleName := "Custom Redactor",
                      severity := "medium", matchedPattern := "abc" }] } := by
  have h := C3_redact_applies_first_matching_pattern_only redactRuleW "zabcq abc"
    rfl rfl
  rw [h]
  decide

/-! ## C4 — risk-score formula -/

/-- The risk-score formula exactly as the claim words it: the whole sum
`20 + weight + DELETE adjustment + admin adjustment` multiplied by the
confidence, then clamped to 100. -/
def riskScoreClaim (intent : Intent) (req : AgentRequest) : ℚ :=
  min 100 ((20 + riskWeight intent.category
    + (if req.method = "DELETE" then 20 else 0)
    + (if strContains req.path "admin" then 10 else 0)) * intent.confidence)

/-- The formula as amended: only `20 + weight` is multiplied by the
confidence; the DELETE and admin adjustments are added afterwards,
then the result is rounded and clamped to 100. -/
def riskScoreAmended (intent : Intent) (req : AgentRequest) : ℚ :=
  min 100 (jsRound ((20 + riskWeight intent.category) * intent.confidence
    + (if req.method = "DELETE" then 20 else 0)
    + (if strContains req.path "admin" then 10 else 0)))

/-- A DELETE request whose body classifies as `destructive` with
confidence 0.3. -/
def reqDel : AgentRequest :=
  { orgId := "org_demo", agentId := "agent-1", bodyText := "Delete the row",
    messages := [], headers := [], path := "/v1/chat/completions",
    method := "DELETE" }

/-- C4 counterexample: for a DELETE request classified `destructive`
with confidence 0.3, the code computes `(20+40)·0.3 + 20 = 38` while
the claimed formula gives `(20+40+20)·0.3 = 24`; the two disagree, so
the adjustments are not inside the multiplication. -/
theorem C4_cex_adjustments_added_after_confidence :
    (classifyIntent reqDel.bodyText).category = "destructive"
    ∧ (classifyIntent reqDel.bodyText).confidence = 3/10
    ∧ calculateRiskScore (classifyIntent reqDel.bodyText) reqDel = 38
    ∧ riskScoreClaim (classifyIntent reqDel.bodyText) reqDel = 24
    ∧ (38 : ℚ) ≠ 24 := by
  refine ⟨by decide, by decide, by decide, by decide, by decide⟩

/-- C4 (amended): for every intent and request, the returned risk score
equals `min(100, round((20 + weight)·confidence + 20·[DELETE] +
10·[admin path]))` — the method and path adjustments are added after
the multiplication by the confidence — and is clamped to at most 100. -/
theorem C4_risk_score_order_of_operations (intent : Intent) (req : AgentRequest) :
    calculateRiskScore intent req = riskScoreAmended intent req
    ∧ calculateRiskScore intent req ≤ 100 := by
  constructor
  · unfold calculateRiskScore riskScoreAmended
    ring_nf
  · unfold calculateRiskScore
    exact min_le_left _ _

/-! ## C5 — Traffic Controller conflict resolution -/

/-- C5 counterexample: a write request against a foreign lock with
exactly 5000 ms of TTL remaining (lock TTL 30 s, age 25 s) is
`rejected` by the code, while the claim ("expires in at most 5 seconds
⇒ queued") requires `queued`. -/
theorem C5_cex_boundary_exactly_5000ms_rejected :
    (resolveConflict 30 "agent-b" ⟨"agent-a", 0⟩ true 25000).resolution
      = Resolution.rejected
    ∧ (30 : Int) * 1000 - (25000 - 0) = 5000 := by
  refine ⟨by decide, by decide⟩

/-- C5 (amended): with a lock held by another agent, a read is granted
(with the stale-data warning), a write is `queued` with
`wait_ms = remaining + 100` exactly when the remaining TTL is strictly
between 0 and 5000 ms, and is `rejected` otherwise (fresh lock with
`remaining ≥ 5000`, or an already-expired remainder); the holder is
always granted. -/
theorem C5_resolve_conflict_cases (lockTtlSeconds : Int) (agentId : String)
    (lock : LockInfo) (isWrite : Bool) (now : Int) :
    (lock.agentId = agentId →
      (resolveConflict lockTtlSeconds agentId lock isWrite now).resolution
        = Resolution.granted)
    ∧ (lock.agentId ≠ agentId → isWrite = false →
        resolveConflict lockTtlSeconds agentId lock isWrite now
          = { resolution := .granted, waitMs := none,
              reason := some "Read allowed during write lock (may see stale data)" })
    ∧ (lock.agentId ≠ agentId → isWrite = true →
        0 < lockTtlSeconds * 1000 - (now - lock.acquiredAt) →
        lockTtlSeconds * 1000 - (now - lock.acquiredAt) < 5000 →
        (resolveConflict lockTtlSeconds agentId lock isWrite now).resolution
          = Resolution.queued
        ∧ (resolveConflict lockTtlSeconds agentId lock isWrite now).waitMs
          = some (lockTtlSeconds * 1000 - (now - lock.acquiredAt) + 100))
    ∧ (lock.agentId ≠ agentId → isWrite = true →
        (lockTtlSeconds * 1000 - (now - lock.acquiredAt) ≤ 0
          ∨ 5000 ≤ lockTtlSeconds * 1000 - (now - lock.acquiredAt)) →
        (resolveConflict lockTtlSeconds agentId lock isWrite now).resolution
          = Resolution.rejected) := by
  refine ⟨?_, ?_, ?_, ?_⟩
  · intro h; simp [resolveConflict, h]
  · intro h hw; simp [resolveConflict, h, hw]
  · intro h hw h1 h2
    simp only [resolveConflict, if_neg h, hw, if_pos (And.intro h1 h2)]
    simp
  · intro h hw hout
    simp only [resolveConflict, if_neg h, hw]
    rw [if_neg (by simp)]
    split
    · rename_i hc
      exfalso
      rcases hout with h0 | h5 <;> omega
    · rfl

/-- C5 witness: the amended theorem at a concrete queued case — a
foreign write lock with 4000 ms remaining is queued with
`wait_ms = 4100`. -/
theorem C5_resolve_conflict_cases_witness :
    (resolveConflict 30 "agent-b" ⟨"agent-a", 0⟩ true 26000).resolution
      = Resolution.queued
    ∧ (resolveConflict 30 "agent-b" ⟨"agent-a", 0⟩ true 26000).waitMs
      = some 4100 := by
  have h := (C5_resolve_conflict_cases 30 "agent-b" ⟨"agent-a", 0⟩ true 26000).2.2.1
    (by decide) rfl (by decide) (by decide)
  exact ⟨h.1, h.2⟩

/-! ## C6 — Bloom pre-filter is not consulted -/

/-- C6 (code bug): even for a firewall instance and Bloom membership
function under which the body's words are all Bloom-negative
(`checkPIIProbable` returns false, per the hypothesis), `evaluate`
still runs the PII confirmation regexes and blocks the SSN-carrying
request — because the stage-1 code calls `confirmPII` directly and
never invokes `checkPIIProbable`, contradicting "a negative membership
skips PII checks entirely". -/
theorem C6_pii_regexes_run_despite_bloom_negative (fw : FW)
    (bloomHas : String → Bool) (hPII : fw.blockPII = true)
    (hShadow : fw.shadowMode = false)
    (_hBloomNeg : checkPIIProbable bloomHas reqSSN.bodyText = false) :
    SemanticFirewall.evaluate fw reqSSN =
      { allowed := false, action := .blocked,
        reason := some "PII detected: SSN", riskScore := 90,
        intentCategory := some "data_exfiltration",
        isShadowEvent := some false, policyId := some fw.policyId } := by
  have hssn : confirmPII "my ssn is 123-45-6789" = some "SSN" := by decide
  have hne : ("my ssn is 123-45-6789" : String) ≠ "" := by decide
  simp [SemanticFirewall.evaluate, evalCore, reqSSN, hPII, hne, hssn,
        blockedFn, hShadow]

/-- C6 witness: the theorem instantiated at the default firewall and
the everywhere-false Bloom membership (all of this request's words are
outside the marker set). -/
theorem C6_pii_regexes_run_despite_bloom_negative_witness :
    checkPIIProbable (fun _ => false) reqSSN.bodyText = false
    ∧ SemanticFirewall.evaluate fwBase reqSSN =
      { allowed := false, action := .blocked,
        reason := some "PII detected: SSN", riskScore := 90,
        intentCategory := some "data_exfiltration",
        isShadowEvent := some false, policyId := some "default" } := by
  refine ⟨by decide, ?_⟩
  have h := C6_pii_regexes_run_despite_bloom_negative fwBase (fun _ => false)
    rfl rfl (by decide)
  exact h

/-! ## C7 — anomaly detector re-emits on every scan -/

/-- Eleven baseline traces of 100 tokens for agent `agent_a`. -/
def baseRow (i : Nat) : TraceRow :=
  { traceId := "tr_" ++ toString i, orgId := "org_demo", agentId := "agent_a",
    tokenCount := 100, createdAt := (i : Int) * 1000 }

/-- A spiking trace (1000 tokens, z-score ≈ 3.17) created one second
before the first scan. -/
def spikeRow : TraceRow :=
  { traceId := "tr_spike", orgId := "org_demo", agentId := "agent_a",
    tokenCount := 1000, createdAt := 190000 }

/-- The trace table seen by two consecutive scans. -/
def radarDb : List TraceRow := ((List.range 11).map baseRow) ++ [spikeRow]

/-- C7 (code bug): the spike trace is inside the 5-minute window at
both the scan at t = 191 000 and the next scan 60 s later, and
`detectTokenSpikes` — which keeps no record of already-flagged traces —
emits an anomaly event for that same trace on each of the two scans,
contradicting the required per-trace idempotence. -/
theorem C7_same_trace_flagged_on_both_scans :
    recent5m 191000 spikeRow = true
    ∧ recent5m 251000 spikeRow = true
    ∧ (spikePairs radarDb 191000).map (fun rg => rg.1) = [spikeRow]
    ∧ (spikePairs radarDb 251000).map (fun rg => rg.1) = [spikeRow]
    ∧ (detectTokenSpikes radarDb 191000).map
        (fun a => (a.agentId, a.tokenCount, a.severity))
      = [("agent_a", 1000, "high")]
    ∧ (detectTokenSpikes radarDb 251000).map
        (fun a => (a.agentId, a.tokenCount, a.severity))
      = [("agent_a", 1000, "high")] := by
  refine ⟨by decide, by decide, by decide, by decide, by decide, by decide⟩

/-! ## C8 — shadow-mode idempotence -/

/-- The stage pipeline does not read the shadow flag. -/
theorem evalCore_ignores_shadow (fw : FW) (req : AgentRequest) (b : Bool) :
    evalCore { fw with shadowMode := b } req = evalCore fw req := rfl

/-- C8: toggling shadow mode changes only `allowed`, `action` and
`is_shadow_event`: the reason, risk score, intent category and policy
id of the two decisions coincide for every input; a decision that is
allowed with shadow off is returned identically with shadow on, and a
blocked decision becomes the same record with `allowed = true`,
`action = shadow_blocked`, `is_shadow_event = true`. -/
theorem C8_shadow_mode_changes_only_flagged_fields (fw : FW) (req : AgentRequest) :
    (SemanticFirewall.evaluate { fw with shadowMode := false } req).reason
      = (SemanticFirewall.evaluate { fw with shadowMode := true } req).reason
    ∧ (SemanticFirewall.evaluate { fw with shadowMode := false } req).riskScore
      = (SemanticFirewall.evaluate { fw with shadowMode := true } req).riskScore
    ∧ (SemanticFirewall.evaluate { fw with shadowMode := false } req).intentCategory
      = (SemanticFirewall.evaluate { fw with shadowMode := true } req).intentCategory
    ∧ (SemanticFirewall.evaluate { fw with shadowMode := false } req).policyId
      = (SemanticFirewall.evaluate { fw with shadowMode := true } req).policyId
    ∧ ((SemanticFirewall.evaluate { fw with shadowMode := false } req).allowed = true →
        SemanticFirewall.evaluate { fw with shadowMode := true } req
          = SemanticFirewall.evaluate { fw with shadowMode := false } req)
    ∧ ((SemanticFirewall.evaluate { fw with shadowMode := false } req).allowed = false →
        SemanticFirewall.evaluate { fw with shadowMode := true } req
          = { SemanticFirewall.evaluate { fw with shadowMode := false } req with
              allowed := true, action := .shadowBlocked,
              isShadowEvent := some true }) := by
  have hcore : evalCore { fw with shadowMode := true } req
      = evalCore { fw with shadowMode := false } req := rfl
  rcases h : evalCore { fw with shadowMode := false } req with ⟨r, k, c⟩ | intent
  · have h2 : evalCore { fw with shadowMode := true } req = .denied r k c :=
      hcore.trans h
    simp [SemanticFirewall.evaluate, h, h2, blockedFn]
  · have h2 : evalCore { fw with shadowMode := true } req = .passed intent :=
      hcore.trans h
    simp [SemanticFirewall.evaluate, h, h2, passedDecision]

/-- C8 witness: for the SSN request blocked with shadow off, the
shadow-on evaluation is the same decision with only `allowed`,
`action` and `is_shadow_event` rewritten. -/
theorem C8_shadow_mode_changes_only_flagged_fields_witness :
    SemanticFirewall.evaluate { fwBase with shadowMode := true } reqSSN
      = { SemanticFirewall.evaluate { fwBase with shadowMode := false } reqSSN with
          allowed := true, action := .shadowBlocked, isShadowEvent := some true } := by
  have h := (C8_shadow_mode_changes_only_flagged_fields fwBase reqSSN).2.2.2.2.2
  exact h (by decide)

/-! ## C9 — exact-hash cache round trip -/

/-- C9: after `store`, a `lookup` with the identical prompt within the
TTL hits the Redis exact-hash path and returns similarity 1.0 with
exactly the stored response text, for any hash function and any
embedding distance. -/
theorem C9_exact_roundtrip (hp : String → String) (dist : String → String → ℚ)
    (cfg : CacheConfig) (st : CacheState) (now t2 : ℚ) (newId : String)
    (orgId model promptText responseText : String) (tokens : Option Nat)
    (hEnabled : cfg.enabled = true) (hTtl : t2 < now + cfg.ttlSeconds) :
    SemanticCache.lookup hp dist cfg
      (SemanticCache.store hp cfg st now newId orgId model promptText
        responseText tokens)
      t2 orgId model promptText
    = some { cacheId := hp promptText, responseText := responseText,
             similarity := 1 } := by
  simp [SemanticCache.store, SemanticCache.lookup, kvGet, kvSet,
        hEnabled, List.find?, hTtl]

/-- C9 witness: a concrete round trip (store at time 0, lookup at time
100, default 24 h TTL) with the identity in place of the external hash
and a constant embedding distance. -/
theorem C9_exact_roundtrip_witness :
    SemanticCache.lookup (fun s => s) (fun _ _ => 0) DEFAULT_CACHE_CONFIG
      (SemanticCache.store (fun s => s) DEFAULT_CACHE_CONFIG ⟨[], []⟩ 0 "uuid-1"
        "org_demo" "gpt-3.5-turbo" "2+2?" "four" (some 12))
      100 "org_demo" "gpt-3.5-turbo" "2+2?"
    = some { cacheId := "2+2?", responseText := "four", similarity := 1 } := by
  exact C9_exact_roundtrip (fun s => s) (fun _ _ => 0) DEFAULT_CACHE_CONFIG
    ⟨[], []⟩ 0 100 "uuid-1" "org_demo" "gpt-3.5-turbo" "2+2?" "four" (some 12)
    rfl (by decide)

/-! ## C10 — exact hits are invisible to hit accounting -/

/-- The `recordHit` UPDATE is the identity when no row carries the
given `cache_id`. -/
theorem recordHit_skips_unmatched (rows : List CacheRow) (cid : String)
    (cost : ℚ) (h : ∀ r ∈ rows, r.cacheId ≠ cid) :
    SemanticCache.recordHit rows cid cost = rows := by
  induction rows with
  | nil => rfl
  | cons a l ih =>
    have hne : a.cacheId ≠ cid := h a (List.mem_cons_self a l)
    have ih2 := ih (fun r hr => h r (List.mem_cons_of_mem a hr))
    simp only [SemanticCache.recordHit] at ih2 ⊢
    rw [List.map_cons, if_neg (by simp [hne]), ih2]

/-- C10: on an exact-hash hit, `lookup` returns `cacheId = hash(prompt)`
(the 16-hex prompt hash), not the stored row's UUID `cache_id`; when no
row's `cache_id` equals that hash — as holds in reality, `cache_id`
being a `gen_random_uuid()` UUID — the subsequent
`recordHit(cacheId, costSaved)` updates nothing: every row keeps its
`hit_count` and `cost_saved`, and no error reaches the caller (the
update's catch swallows failures, and an empty update is no failure). -/
theorem C10_exact_hit_record_misses_rows (hp : String → String)
    (dist : String → String → ℚ) (cfg : CacheConfig) (st : CacheState)
    (now : ℚ) (orgId model promptText v : String) (cost : ℚ)
    (hEnabled : cfg.enabled = true)
    (hKv : kvGet st.kv now (cacheKey orgId model (hp promptText)) = some v)
    (hIds : ∀ r ∈ st.rows, r.cacheId ≠ hp promptText) :
    SemanticCache.lookup hp dist cfg st now orgId model promptText
      = some { cacheId := hp promptText, responseText := v, similarity := 1 }
    ∧ SemanticCache.recordHit st.rows (hp promptText) cost = st.rows := by
  constructor
  · simp [SemanticCache.lookup, hEnabled, hKv]
  · exact recordHit_skips_unmatched st.rows (hp promptText) cost hIds

/-- A concrete `semantic_cache` row with a UUID `cache_id`. -/
def rowC10 : CacheRow :=
  { cacheId := "3f2a77aa-0a44-4f6e-9f30-2f9c55aa0001", orgId := "org_demo",
    model := "gpt-3.5-turbo", promptHash := "p1", embKey := "2+2?",
    promptText := "2+2?", responseText := "four", responseTokens := some 12,
    hitCount := 3, costSaved := 1/100, expiresAt := 1000 }

/-- Cache state holding the row and its Redis shortcut. -/
def stC10 : CacheState :=
  { kv := [⟨cacheKey "org_demo" "gpt-3.5-turbo" "p1", "four", 1000⟩],
    rows := [rowC10] }

/-- C10 witness: with the row's shortcut present, lookup returns the
prompt hash `p1` as `cacheId`, and `recordHit` at that id (with the
proxy's 0.002 estimated cost) leaves the row's counters untouched. -/
theorem C10_exact_hit_record_misses_rows_witness :
    SemanticCache.lookup (fun _ => "p1") (fun _ _ => 0) DEFAULT_CACHE_CONFIG
      stC10 0 "org_demo" "gpt-3.5-turbo" "2+2?"
      = some { cacheId := "p1", responseText := "four", similarity := 1 }
    ∧ SemanticCache.recordHit stC10.rows "p1" (1/500) = stC10.rows := by
  have h := C10_exact_hit_record_misses_rows (fun _ => "p1") (fun _ _ => 0)
    DEFAULT_CACHE_CONFIG stC10 0 "org_demo" "gpt-3.5-turbo" "2+2?" "four" (1/500)
    rfl (by decide) (by decide)
  exact h

end Switchboard
